import Mathlib

/-!
Verification of the CropPulse dashboard (src/app.py).

The numeric logic of the program is exact decimal arithmetic performed on
Python floats; we embed it shallowly over the rationals `ℚ`, with Python's
literal `1.1` modelled exactly as `11/10` and Python's banker's rounding
(`round`, which rounds halves to even) modelled by `pyRound` / `pyRound1`.
Stateful code (the per-session scan history) is modelled by explicit state
passing on `List HistoryEntry`; the render cycle's possible classifier
failure is modelled with `Except`.
-/

/-- Python's built-in `round` to zero decimal places on an exact rational:
round half to even (banker's rounding). -/
def pyRound (q : ℚ) : ℤ :=
  if q - ⌊q⌋ < 1/2 then ⌊q⌋
  else if 1/2 < q - ⌊q⌋ then ⌊q⌋ + 1
  else if ⌊q⌋ % 2 = 0 then ⌊q⌋ else ⌊q⌋ + 1

/-- Python's `round(x, 1)` (one decimal place) on an exact rational. -/
def pyRound1 (q : ℚ) : ℚ := (pyRound (q * 10) : ℚ) / 10

/-- src/app.py line 166: `affected_area = max(5, round((1.1 - confidence) * 100))`. -/
def affected_area (confidence : ℚ) : ℤ :=
  max 5 (pyRound ((11/10 - confidence) * 100))

/-- src/app.py line 167: `chem_saved = 100 - affected_area`. -/
def chem_saved (confidence : ℚ) : ℤ := 100 - affected_area confidence

/-- src/app.py line 168: `yield_prot = round(confidence * 100, 1)`. -/
def yield_prot (confidence : ℚ) : ℚ := pyRound1 (confidence * 100)

/-- Spec formula (section 4.3): `affectedAreaPct = max(5, round((1.1 - confidence) * 100))`. -/
def affectedAreaPct (c : ℚ) : ℤ := max 5 (pyRound ((11/10 - c) * 100))

/-- Spec formula (section 4.3): `resourceSavedPct = 100 - affectedAreaPct`. -/
def resourceSavedPct (c : ℚ) : ℤ := 100 - affectedAreaPct c

/-- Spec formula (section 4.3): `yieldProtectedPct = round(confidence * 100, 1)`. -/
def yieldProtectedPct (c : ℚ) : ℚ := pyRound1 (c * 100)

/-- The advisory record held in `knowledge.json` for one label
(src/app.py lines 193-200). The load-failure record on line 200 has no
`hindi_pest` key, hence the optional field. -/
structure AdvisoryRecord where
  symptoms : String
  pesticide : String
  organic : String
  hindi_pest : Option String
deriving DecidableEq, Repr

/-- src/app.py lines 193-198: the default record returned when neither the
raw nor the cleaned label is a key of the knowledge base. -/
def kbMissDefault : AdvisoryRecord :=
  { symptoms := "Detailed symptoms pending for this variant."
    pesticide := "Consult your local Krishi Vigyan Kendra."
    organic := "Apply diluted Neem Oil (5ml/L)."
    hindi_pest := some "स्थानीय कृषि केंद्र से सलाह लें।" }

/-- src/app.py line 200: the record substituted when loading
`knowledge.json` raises (the `except` branch). -/
def kbErrorDefault : AdvisoryRecord :=
  { symptoms := "Database error.", pesticide := "N/A", organic := "N/A", hindi_pest := none }

/-- src/app.py lines 190-200: the knowledge-base lookup. `load` is `none`
when opening or parsing `knowledge.json` raises, and `some kb` when it
yields the mapping `kb`; the body then evaluates
`kb.get(raw_label) or kb.get(clean_label) or <default>`.
(Stored records are non-empty JSON objects, hence truthy in Python; missing
keys give `None`, so `or` chains to the next alternative exactly as
`Option.orElse`/`getD` do.) -/
def knowledgeLookup (load : Option (String → Option AdvisoryRecord))
    (raw_label clean_label : String) : AdvisoryRecord :=
  match load with
  | none => kbErrorDefault
  | some kb => ((kb raw_label).orElse (fun _ => kb clean_label)).getD kbMissDefault

/-- src/app.py line 154: `clean_label = raw_label.replace("___", " - ").replace("_", " ")`. -/
def cleanLabel (raw_label : String) : String :=
  (raw_label.replace "___" " - ").replace "_" " "

/-- One entry of `st.session_state.scan_history`
(src/app.py line 185: `{"Time": now, "Condition": clean_label, "Score": round(confidence*10, 1)}`). -/
structure HistoryEntry where
  time : String
  condition : String
  score : ℚ
deriving DecidableEq, Repr

/-- src/app.py line 185: the entry built from the scan, with
`Score = round(confidence * 10, 1)`. -/
def mkEntry (now : String) (clean_label : String) (confidence : ℚ) : HistoryEntry :=
  { time := now, condition := clean_label, score := pyRound1 (confidence * 10) }

/-- The `Time` field of the last history entry, if any. -/
def lastTime (hist : List HistoryEntry) : Option String :=
  hist.getLast?.map HistoryEntry.time

/-- src/app.py lines 186-187: append the new entry unless the history is
non-empty and its last entry has the same `Time`. -/
def recordScan (hist : List HistoryEntry) (e : HistoryEntry) : List HistoryEntry :=
  if hist.isEmpty ∨ lastTime hist ≠ some e.time then hist ++ [e] else hist

/-- src/app.py line 245: `yaxis_range=[0, 10]` of the history trend chart. -/
def yaxisRange : ℚ × ℚ := (0, 10)

/-- Scan of the remaining conditions keeping, at each step, the candidate
with the strictly larger occurrence count in `l`, or, on an exact tie of
counts, the lexicographically smaller string (Python compares strings by
code points, which is exactly the lexicographic order on `String.data`).
Starting from the head of `l` this computes the smallest element of the
set of most frequent values, which is what `Series.mode()[0]` yields
(pandas returns the modal values in ascending sorted order). -/
def modeFold (l : List String) : String → List String → String
  | acc, [] => acc
  | acc, y :: t =>
      if l.count acc < l.count y ∨ (l.count y = l.count acc ∧ y.data < acc.data) then
        modeFold l y t
      else
        modeFold l acc t

/-- src/app.py line 250: `df_hist['Condition'].mode()[0]` on a list of
condition strings — the first, in ascending sorted order, of the values
attaining the maximal occurrence count. -/
def pandasMode (l : List String) : Option String :=
  match l with
  | [] => none
  | h :: t => some (modeFold (h :: t) h t)

/-- src/app.py line 250 applied to the session history: the most-frequent
condition shown in the insight box. -/
def historyMode (hist : List HistoryEntry) : Option String :=
  pandasMode (hist.map HistoryEntry.condition)

/-- Modelled from the spec sentence of C4 ("ties broken by
first-encountered order"), for comparison with `pandasMode`: the first
value, in encounter order, attaining the maximal occurrence count. -/
def firstEncounteredMode (l : List String) : Option String :=
  match l with
  | [] => none
  | h :: t => some (t.foldl (fun acc y => if l.count acc < l.count y then y else acc) h)

/-- The classifier's chosen top result (src/app.py lines 150-155):
`res = max(predictions, key=...)`, its label and score. -/
structure ClassificationResult where
  label : String
  score : ℚ
deriving DecidableEq, Repr

/-- Everything the successful branch of the render cycle derives from the
classification (src/app.py lines 153-200). -/
structure RenderOutput where
  clean_label : String
  affectedArea : ℤ
  chemSaved : ℤ
  yieldProt : ℚ
  advisory : AdvisoryRecord
deriving Repr

/-- One render cycle of the results column (src/app.py lines 145-233),
as explicit state passing on the session history. `classify` is the
outcome of `classifier(final_img)` on line 150: the call sits under no
`try`, so a failure (`Except.error`) propagates and none of the code after
line 150 runs — the pair returned is the surfaced error together with the
untouched history. On success the metrics (lines 166-168), the history
update (lines 184-187) and the knowledge lookup (lines 190-200) all run. -/
def renderCycle (classify : Except String ClassificationResult)
    (kbLoad : Option (String → Option AdvisoryRecord))
    (hist : List HistoryEntry) (now : String) :
    Except String RenderOutput × List HistoryEntry :=
  match classify with
  | .error e => (.error e, hist)
  | .ok res =>
      (.ok { clean_label := cleanLabel res.label
             affectedArea := affected_area res.score
             chemSaved := chem_saved res.score
             yieldProt := yield_prot res.score
             advisory := knowledgeLookup kbLoad res.label (cleanLabel res.label) },
       recordScan hist (mkEntry now (cleanLabel res.label) res.score))

/-! ## Helper lemmas on `pyRound` -/

lemma floor_le_pyRound (q : ℚ) : ⌊q⌋ ≤ pyRound q := by
  unfold pyRound; split_ifs <;> omega

lemma pyRound_le_floor_add_one (q : ℚ) : pyRound q ≤ ⌊q⌋ + 1 := by
  unfold pyRound; split_ifs <;> omega

lemma le_pyRound_of_le (n : ℤ) (q : ℚ) (h : (n : ℚ) ≤ q) : n ≤ pyRound q := by
  have h1 : n ≤ ⌊q⌋ := Int.le_floor.mpr h
  have h2 := floor_le_pyRound q
  omega

lemma pyRound_le_of_le (n : ℤ) (q : ℚ) (h : q ≤ (n : ℚ)) : pyRound q ≤ n := by
  have hf : ⌊q⌋ ≤ n := by
    have := Int.floor_le_floor h
    simpa using this
  rcases lt_or_eq_of_le hf with hlt | heq
  · have := pyRound_le_floor_add_one q
    omega
  · have hr : q - ⌊q⌋ < 1/2 := by
      rw [heq]
      have : q - n ≤ 0 := by linarith
      linarith
  
    unfold pyRound
    rw [if_pos hr]
    omega

/-! ## Claim theorems -/

/-- C1: for every confidence `c ∈ [0,1]` the code's derived metrics
(src/app.py lines 166-168) agree with the spec formulas
`affectedAreaPct = max(5, round((1.1 - c) * 100))`,
`resourceSavedPct = 100 - affectedAreaPct` and
`yieldProtectedPct = round(c * 100, 1)`. -/
theorem metrics_match_spec_formulas (c : ℚ) (h0 : 0 ≤ c) (h1 : c ≤ 1) :
    affectedAreaPct c = affected_area c ∧
    resourceSavedPct c = chem_saved c ∧
    yieldProtectedPct c = yield_prot c :=
  ⟨rfl, rfl, rfl⟩

/-- Witness for `metrics_match_spec_formulas` at `c = 0.82`. -/
theorem metrics_match_spec_formulas_witness :
    affectedAreaPct (41/50) = affected_area (41/50) ∧
    resourceSavedPct (41/50) = chem_saved (41/50) ∧
    yieldProtectedPct (41/50) = yield_prot (41/50) :=
  metrics_match_spec_formulas (41/50) (by norm_num) (by norm_num)

/-- C2 counterexample: at confidence `c = 1.0` the code gives
`affected_area = max(5, round(0.1 * 100)) = 10`, not the claimed 5, hence
`chem_saved = 90`, not 95; and at `c = 0.0` it gives
`affected_area = round(110) = 110`, not the claimed 100. -/
theorem boundary_metrics_counterexample :
    affected_area 1 = 10 ∧ affected_area 1 ≠ 5 ∧
    chem_saved 1 = 90 ∧ chem_saved 1 ≠ 95 ∧
    affected_area 0 = 110 ∧ affected_area 0 ≠ 100 := by
  norm_num [affected_area, chem_saved, pyRound]

/-- C2 amended: at the boundaries of the confidence range the metric
formulas give `affected_area 1 = 10`, `chem_saved 1 = 90`, and
`affected_area 0 = 110` (so `chem_saved 0 = -10`). -/
theorem boundary_metrics_values :
    affected_area 1 = 10 ∧ chem_saved 1 = 90 ∧
    affected_area 0 = 110 ∧ chem_saved 0 = -10 := by
  norm_num [affected_area, chem_saved, pyRound]

/-- C6: a render cycle whose top classification is label
"Tomato_Early_blight" with confidence `0.82` produces
`affected_area = 28`, `chem_saved = 72`, `yield_prot = 82.0`,
whatever the knowledge base, history, timestamp (and field size: the
metrics do not depend on it) are. -/
theorem scenario_confidence_082 (kbLoad : Option (String → Option AdvisoryRecord))
    (hist : List HistoryEntry) (now : String) :
    (renderCycle (.ok { label := "Tomato_Early_blight", score := 41/50 }) kbLoad hist now).1.map
      (fun o => (o.affectedArea, o.chemSaved, o.yieldProt)) = .ok (28, 72, 82) := by
  simp only [renderCycle, Except.map]
  norm_num [affected_area, chem_saved, yield_prot, pyRound, pyRound1]

/-- C9: for every confidence `c ∈ [0,1]` the affected-area metric is at
least 5, but it is not bounded above by 100: at `c = 0` it is 110 (> 100)
and the resource-saved metric `100 - 110 = -10` is negative — the
percentages are never clamped to `[0, 100]`. -/
theorem affected_area_unclamped (c : ℚ) (h0 : 0 ≤ c) (h1 : c ≤ 1) :
    5 ≤ affected_area c ∧
    affected_area 0 = 110 ∧ 100 < affected_area 0 ∧
    chem_saved 0 = -10 ∧ chem_saved 0 < 0 := by
  refine ⟨le_max_left _ _, ?_⟩
  norm_num [affected_area, chem_saved, pyRound]

/-- Witness for `affected_area_unclamped` at `c = 1/2`. -/
theorem affected_area_unclamped_witness :
    5 ≤ affected_area (1/2) ∧
    affected_area 0 = 110 ∧ 100 < affected_area 0 ∧
    chem_saved 0 = -10 ∧ chem_saved 0 < 0 :=
  affected_area_unclamped (1/2) (by norm_num) (by norm_num)

/-- C8: when the classifier invocation fails, the failure propagates
uncaught out of the render cycle (src/app.py line 150 sits under no
`try`), the output is exactly that error — so the knowledge lookup and
the metrics are never produced — and the session history is unchanged. -/
theorem classifier_failure_uncaught (e : String)
    (kbLoad : Option (String → Option AdvisoryRecord))
    (hist : List HistoryEntry) (now : String) :
    renderCycle (.error e) kbLoad hist now = (.error e, hist) := rfl

/-- C5: `recordScan` appends the new entry exactly when the history is
empty or the last stored entry's timestamp differs from the new entry's
timestamp; otherwise it leaves the history untouched (so the result is
always the old history, possibly with the single new entry appended at
the end — earlier entries are never modified and insertion order is
kept); and a second entry carrying the same timestamp as the entry just
appended is dropped. -/
theorem recordScan_spec (hist : List HistoryEntry) (e e2 : HistoryEntry) :
    (recordScan hist e = hist ++ [e] ↔ (hist = [] ∨ lastTime hist ≠ some e.time)) ∧
    (recordScan hist e = hist ++ [e] ∨ recordScan hist e = hist) ∧
    (e2.time = e.time → recordScan (hist ++ [e]) e2 = hist ++ [e]) := by
  refine ⟨?_, ?_, ?_⟩
  · by_cases hc : (hist.isEmpty ∨ lastTime hist ≠ some e.time)
    · rw [recordScan, if_pos hc]
      simpa [List.isEmpty_iff] using hc
    · rw [recordScan, if_neg hc]
      constructor
      · intro habs
        exact absurd (List.self_eq_append_right.mp habs) (by simp)
      · intro h
        exact absurd (by simpa [List.isEmpty_iff] using h) hc
  · by_cases hc : (hist.isEmpty ∨ lastTime hist ≠ some e.time)
    · exact Or.inl (by rw [recordScan, if_pos hc])
    · exact Or.inr (by rw [recordScan, if_neg hc])
  · intro ht
    rw [recordScan, if_neg]
    simp [lastTime, List.getLast?_concat, ht]

/-- Witness for `recordScan_spec`: two scans at the same timestamp store
only one entry. -/
theorem recordScan_spec_witness :
    recordScan ([] ++ [mkEntry "10:00:00" "Tomato Early blight" (41/50)])
        (mkEntry "10:00:00" "Apple scab" (1/2)) =
      [] ++ [mkEntry "10:00:00" "Tomato Early blight" (41/50)] :=
  (recordScan_spec [] (mkEntry "10:00:00" "Tomato Early blight" (41/50))
    (mkEntry "10:00:00" "Apple scab" (1/2))).2.2 rfl

/-- C3 counterexample: when the knowledge base fails to load, the lookup
returns the `except`-branch record of src/app.py line 200
("Database error."), which is NOT the same record as the miss default of
lines 193-198 — the claim that the load-failure result equals the miss
default is false. -/
theorem kb_load_failure_counterexample :
    knowledgeLookup none "Tomato_Early_blight" "Tomato Early blight" = kbErrorDefault ∧
    knowledgeLookup none "Tomato_Early_blight" "Tomato Early blight" ≠ kbMissDefault := by
  constructor
  · rfl
  · intro h
    have : kbErrorDefault = kbMissDefault := h
    simp [kbErrorDefault, kbMissDefault] at this

/-- C3 amended: a label stored in the knowledge base (under its raw or,
failing that, its cleaned form) yields the exact stored record; an absent
label yields the fixed miss default of src/app.py lines 193-198; a store
that fails to load yields the distinct fixed error record of line 200. -/
theorem knowledgeLookup_total_spec (kb : String → Option AdvisoryRecord)
    (raw clean : String) (r r2 : AdvisoryRecord) :
    (kb raw = some r → knowledgeLookup (some kb) raw clean = r) ∧
    (kb raw = none → kb clean = some r2 → knowledgeLookup (some kb) raw clean = r2) ∧
    (kb raw = none → kb clean = none → knowledgeLookup (some kb) raw clean = kbMissDefault) ∧
    knowledgeLookup none raw clean = kbErrorDefault := by
  refine ⟨?_, ?_, ?_, rfl⟩
  · intro h
    simp [knowledgeLookup, h, Option.orElse]
  · intro h1 h2
    simp [knowledgeLookup, h1, h2, Option.orElse]
  · intro h1 h2
    simp [knowledgeLookup, h1, h2, Option.orElse]

/-- Witness for `knowledgeLookup_total_spec`: a store holding exactly one
record under the raw label returns that record. -/
theorem knowledgeLookup_total_spec_witness :
    knowledgeLookup
        (some (fun s => if s = "Tomato_Early_blight" then
          some { symptoms := "s", pesticide := "p", organic := "o", hindi_pest := none }
          else none))
        "Tomato_Early_blight" "Tomato Early blight" =
      { symptoms := "s", pesticide := "p", organic := "o", hindi_pest := none } :=
  (knowledgeLookup_total_spec _ "Tomato_Early_blight" "Tomato Early blight"
    { symptoms := "s", pesticide := "p", organic := "o", hindi_pest := none }
    kbMissDefault).1 (by simp)

/-- C7: the lookup consults the raw label first — whenever the raw label
is a key, its record is returned no matter what the cleaned label maps
to — and only on a raw miss does it consult the cleaned label; when both
miss it falls back to the miss default. -/
theorem lookup_raw_before_clean (kb : String → Option AdvisoryRecord)
    (raw clean : String) (r r2 : AdvisoryRecord) :
    (kb raw = some r → knowledgeLookup (some kb) raw clean = r) ∧
    (kb raw = none → kb clean = some r2 → knowledgeLookup (some kb) raw clean = r2) ∧
    (kb raw = none → kb clean = none → knowledgeLookup (some kb) raw clean = kbMissDefault) := by
  refine ⟨?_, ?_, ?_⟩
  · intro h
    simp [knowledgeLookup, h, Option.orElse]
  · intro h1 h2
    simp [knowledgeLookup, h1, h2, Option.orElse]
  · intro h1 h2
    simp [knowledgeLookup, h1, h2, Option.orElse]

/-- Witness for `lookup_raw_before_clean`: with the raw label present and
the cleaned label mapped to a different record, the raw record wins. -/
theorem lookup_raw_before_clean_witness :
    knowledgeLookup
        (some (fun s => if s = "A___B" then
            some { symptoms := "raw", pesticide := "p", organic := "o", hindi_pest := none }
          else if s = "A - B" then
            some { symptoms := "clean", pesticide := "p", organic := "o", hindi_pest := none }
          else none))
        "A___B" "A - B" =
      { symptoms := "raw", pesticide := "p", organic := "o", hindi_pest := none } :=
  (lookup_raw_before_clean _ "A___B" "A - B"
    { symptoms := "raw", pesticide := "p", organic := "o", hindi_pest := none }
    kbMissDefault).1 (by simp)

/-- C10: the score stored in a history entry is `round(confidence*10, 1)`
— a 0-to-10 value, not the raw confidence — and for any confidence in
`[0,1]` it lies within the trend chart's fixed y-axis range `[0, 10]`
(src/app.py lines 185 and 245); at confidence `0.82` the stored score is
`8.2`, which differs from `0.82`. -/
theorem entry_score_scale (c : ℚ) (now clean : String) (h0 : 0 ≤ c) (h1 : c ≤ 1) :
    (mkEntry now clean c).score = pyRound1 (c * 10) ∧
    yaxisRange = (0, 10) ∧
    yaxisRange.1 ≤ (mkEntry now clean c).score ∧
    (mkEntry now clean c).score ≤ yaxisRange.2 ∧
    (mkEntry now clean (41/50)).score = 41/5 ∧ ((41 : ℚ)/5) ≠ 41/50 := by
  have hlow : (0 : ℤ) ≤ pyRound (c * 10 * 10) := by
    apply le_pyRound_of_le
    push_cast
    nlinarith
  have hhigh : pyRound (c * 10 * 10) ≤ 100 := by
    apply pyRound_le_of_le
    push_cast
    nlinarith
  have hlowq : (0 : ℚ) ≤ (pyRound (c * 10 * 10) : ℚ) := by exact_mod_cast hlow
  have hhighq : (pyRound (c * 10 * 10) : ℚ) ≤ 100 := by exact_mod_cast hhigh
  refine ⟨rfl, rfl, ?_, ?_, ?_, by norm_num⟩
  · simp only [mkEntry, pyRound1, yaxisRange]
    linarith
  · simp only [mkEntry, pyRound1, yaxisRange]
    linarith
  · norm_num [mkEntry, pyRound1, pyRound]

/-- Witness for `entry_score_scale` at confidence `0.82`. -/
theorem entry_score_scale_witness :
    (mkEntry "10:00:00" "Tomato Early blight" (41/50)).score = pyRound1 (41/50 * 10) ∧
    yaxisRange = (0, 10) ∧
    yaxisRange.1 ≤ (mkEntry "10:00:00" "Tomato Early blight" (41/50)).score ∧
    (mkEntry "10:00:00" "Tomato Early blight" (41/50)).score ≤ yaxisRange.2 ∧
    (mkEntry "10:00:00" "Tomato Early blight" (41/50)).score = 41/5 ∧ ((41 : ℚ)/5) ≠ 41/50 :=
  entry_score_scale (41/50) "10:00:00" "Tomato Early blight" (by norm_num) (by norm_num)

/-- Invariant of `modeFold`: the survivor comes from the candidates, its
count dominates every candidate's count, and among candidates of equal
(maximal) count it is lexicographically least. -/
lemma modeFold_spec (l : List String) (rest : List String) (acc : String) :
    (modeFold l acc rest = acc ∨ modeFold l acc rest ∈ rest) ∧
    l.count acc ≤ l.count (modeFold l acc rest) ∧
    (∀ y ∈ rest, l.count y ≤ l.count (modeFold l acc rest)) ∧
    (l.count (modeFold l acc rest) = l.count acc → (modeFold l acc rest).data ≤ acc.data) ∧
    (∀ y ∈ rest, l.count (modeFold l acc rest) = l.count y →
      (modeFold l acc rest).data ≤ y.data) := by
  induction rest generalizing acc with
  | nil => simp [modeFold]
  | cons y t ih =>
    by_cases hc : l.count acc < l.count y ∨ (l.count y = l.count acc ∧ y.data < acc.data)
    · have hrw : modeFold l acc (y :: t) = modeFold l y t := by rw [modeFold, if_pos hc]
      obtain ⟨m1, m2, m3, m4, m5⟩ := ih y
      rw [hrw]
      refine ⟨?_, ?_, ?_, ?_, ?_⟩
      · rcases m1 with h | h
        · exact Or.inr (by rw [h]; exact List.mem_cons_self y t)
        · exact Or.inr (List.mem_cons_of_mem y h)
      · rcases hc with h | ⟨h1, h2⟩
        · exact le_trans (le_of_lt h) m2
        · exact h1 ▸ m2
      · intro z hz
        rcases List.mem_cons.mp hz with h | h
        · exact h ▸ m2
        · exact m3 z h
      · intro he
        rcases hc with h | ⟨h1, h2⟩
        · omega
        · exact le_trans (m4 (by omega)) (le_of_lt h2)
      · intro z hz he
        rcases List.mem_cons.mp hz with h | h
        · subst h
          exact m4 he
        · exact m5 z h he
    · have hrw : modeFold l acc (y :: t) = modeFold l acc t := by rw [modeFold, if_neg hc]
      push_neg at hc
      obtain ⟨hc1, hc2⟩ := hc
      obtain ⟨m1, m2, m3, m4, m5⟩ := ih acc
      rw [hrw]
      refine ⟨?_, m2, ?_, m4, ?_⟩
      · rcases m1 with h | h
        · exact Or.inl h
        · exact Or.inr (List.mem_cons_of_mem y h)
      · intro z hz
        rcases List.mem_cons.mp hz with h | h
        · exact h ▸ le_trans hc1 m2
        · exact m3 z h
      · intro z hz he
        rcases List.mem_cons.mp hz with h | h
        · subst h
          have hy_acc : l.count z = l.count acc := by omega
          exact le_trans (m4 (by omega)) (hc2 hy_acc)
        · exact m5 z h he

/-- C4 counterexample: on a history whose two conditions "b" then "a"
each occur once, `mode()[0]` yields "a" (ascending sorted order of the
modal values), while the first-encountered maximal-count label is "b" —
ties are NOT broken by first-encountered order. -/
theorem mode_tie_counterexample :
    historyMode [{ time := "10:00:00", condition := "b", score := 8 },
                 { time := "10:00:05", condition := "a", score := 8 }] = some "a" ∧
    firstEncounteredMode
        ([{ time := "10:00:00", condition := "b", score := 8 },
          { time := "10:00:05", condition := "a", score := 8 }].map HistoryEntry.condition) =
      some "b" ∧
    ("a" : String) ≠ "b" := by
  refine ⟨by decide, by decide, by decide⟩

/-- C4 amended: on every non-empty history the summary returns a label of
maximal occurrence count among the conditions; when several labels tie
for that count, it returns the lexicographically smallest of them
(ascending sort order, the order `Series.mode` reports), not the
first-encountered one. -/
theorem historyMode_most_frequent (hist : List HistoryEntry) (h : hist ≠ []) :
    ∃ m, historyMode hist = some m ∧
      m ∈ hist.map HistoryEntry.condition ∧
      (∀ y ∈ hist.map HistoryEntry.condition,
        (hist.map HistoryEntry.condition).count y ≤
          (hist.map HistoryEntry.condition).count m) ∧
      (∀ y ∈ hist.map HistoryEntry.condition,
        (hist.map HistoryEntry.condition).count y =
            (hist.map HistoryEntry.condition).count m →
          m.data ≤ y.data) := by
  rcases hmap : hist.map HistoryEntry.condition with _ | ⟨hd, tl⟩
  · exact absurd (List.map_eq_nil_iff.mp hmap) h
  · obtain ⟨m1, m2, m3, m4, m5⟩ := modeFold_spec (hd :: tl) tl hd
    refine ⟨modeFold (hd :: tl) hd tl, ?_, ?_, ?_, ?_⟩
    · simp [historyMode, hmap, pandasMode]
    · rcases m1 with h1 | h1
      · rw [h1]
        exact List.mem_cons_self hd tl
      · exact List.mem_cons_of_mem hd h1
    · intro y hy
      rcases List.mem_cons.mp hy with h1 | h1
      · exact h1 ▸ m2
      · exact m3 y h1
    · intro y hy he
      rcases List.mem_cons.mp hy with h1 | h1
      · subst h1
        exact m4 he.symm
      · exact m5 y h1 he.symm

/-- Witness for `historyMode_most_frequent` on a one-entry history. -/
theorem historyMode_most_frequent_witness :
    ∃ m, historyMode [{ time := "09:00:00", condition := "Apple scab", score := 7 }] = some m ∧
      m ∈ [{ time := "09:00:00", condition := "Apple scab",
             score := (7 : ℚ) }].map HistoryEntry.condition ∧
      (∀ y ∈ [{ time := "09:00:00", condition := "Apple scab",
                score := (7 : ℚ) }].map HistoryEntry.condition,
        ([{ time := "09:00:00", condition := "Apple scab",
            score := (7 : ℚ) }].map HistoryEntry.condition).count y ≤
          ([{ time := "09:00:00", condition := "Apple scab",
              score := (7 : ℚ) }].map HistoryEntry.condition).count m) ∧
      (∀ y ∈ [{ time := "09:00:00", condition := "Apple scab",
                score := (7 : ℚ) }].map HistoryEntry.condition,
        ([{ time := "09:00:00", condition := "Apple scab",
            score := (7 : ℚ) }].map HistoryEntry.condition).count y =
            ([{ time := "09:00:00", condition := "Apple scab",
                score := (7 : ℚ) }].map HistoryEntry.condition).count m →
          m.data ≤ y.data) :=
  historyMode_most_frequent [{ time := "09:00:00", condition := "Apple scab", score := 7 }]
    (by simp)
